import Mathlib

/-!
Verification of the particle-flow simulation engine of this repository
(`FlowSimulationEngine` and its helpers).  Machine numbers are embedded as
exact rationals; the engine's per-frame mutation of each particle is embedded
as a pure step function, and the sequential `forEach` loop over the particle
array as structural recursion over a list.
-/

/-- Particle record, from `initializeParticles`:
`{ x, y, vx, vy, radius, color, density, friction }`. -/
@[ext]
structure Particle where
  x : ℚ
  y : ℚ
  vx : ℚ
  vy : ℚ
  radius : ℚ
  color : String
  density : ℚ
  friction : ℚ
deriving Repr, DecidableEq

/-- Engine constants read by `updateParticles`: `this.gravity`, `this.speed`,
and the canvas dimensions `mainCanvas.width` / `mainCanvas.height`. -/
structure SimConfig where
  gravity : ℚ
  speed : ℚ
  width : ℚ
  height : ℚ
deriving Repr, DecidableEq

/-- Body of the `forEach` in `FlowSimulationEngine.updateParticles`, acting on
one particle: gravity (scaled by density and 0.01) is added to `vy`, both
velocity components are multiplied by the particle's friction, the position is
advanced by velocity times `speed`, then the horizontal branch flips `vx`
(scaled by -0.8) when `x` is outside `[radius, width - radius]`, and the
vertical branch clamps `y` to `height - radius` and flips `vy` (scaled by
-0.8) when `y` exceeds `height - radius`. -/
def stepParticle (cfg : SimConfig) (p : Particle) : Particle :=
  let vy1 := p.vy + cfg.gravity * p.density * (1 / 100)
  let vx1 := p.vx * p.friction
  let vy2 := vy1 * p.friction
  let x1 := p.x + vx1 * cfg.speed
  let y1 := p.y + vy2 * cfg.speed
  { p with
    x := x1
    y := if y1 > cfg.height - p.radius then cfg.height - p.radius else y1
    vx := if x1 < p.radius ∨ x1 > cfg.width - p.radius then vx1 * (-(4 / 5)) else vx1
    vy := if y1 > cfg.height - p.radius then vy2 * (-(4 / 5)) else vy2 }

/-- `FlowSimulationEngine.updateParticles`: the sequential `forEach` loop over
the particle array, embedded as structural recursion (each iteration rewrites
one particle in place and touches no other element). -/
def updateParticles (cfg : SimConfig) : List Particle → List Particle
  | [] => []
  | p :: ps => stepParticle cfg p :: updateParticles cfg ps

/-- Position reached by the horizontal move of a tick, before the boundary
branches run (the value of `particle.x` tested by the horizontal branch). -/
def movedX (cfg : SimConfig) (p : Particle) : ℚ :=
  p.x + p.vx * p.friction * cfg.speed

/-- Position reached by the vertical move of a tick, before the boundary
branches run (the value of `particle.y` tested by the vertical branch). -/
def movedY (cfg : SimConfig) (p : Particle) : ℚ :=
  p.y + (p.vy + cfg.gravity * p.density * (1 / 100)) * p.friction * cfg.speed

/-- Spec-worded step function, written from the specification's per-tick list:
(1) `vy += gravity * density * (1 / 100)`; (2) `vx *= friction; vy *= friction`;
(3) `x += vx * speed; y += vy * speed`; (4) if the resulting `x` leaves the
interval `[radius, width - radius]`, `vx` is inverted and scaled by the
restitution coefficient 0.8; (5) if the resulting `y` exceeds
`height - radius`, `y` is clamped to `height - radius` and `vy` is inverted
and scaled by the same coefficient.  Compared against `stepParticle` for the
refinement claim. -/
def stepParticleSpec (cfg : SimConfig) (p : Particle) : Particle :=
  let vy1 := p.vy + cfg.gravity * p.density * (1 / 100)
  let vx1 := p.vx * p.friction
  let vy2 := vy1 * p.friction
  let x1 := p.x + vx1 * cfg.speed
  let y1 := p.y + vy2 * cfg.speed
  { p with
    x := x1
    y := if y1 > cfg.height - p.radius then cfg.height - p.radius else y1
    vx := if ¬ (p.radius ≤ x1 ∧ x1 ≤ cfg.width - p.radius) then -((4 / 5) * vx1) else vx1
    vy := if y1 > cfg.height - p.radius then -((4 / 5) * vy2) else vy2 }

/-- Material property block, from the entries of `materialLibrary`:
`properties: { density, friction, elasticity, size, color }`. -/
structure MaterialProperties where
  density : ℚ
  friction : ℚ
  elasticity : ℚ
  size : String
  color : String
deriving Repr, DecidableEq

/-- Material record, from the entries of `materialLibrary`: it carries both a
`category` field (the library-filter grouping) and a `type` field (the field
`initializeParticles` switches on). -/
structure Material where
  id : String
  name : String
  category : String
  type : String
  properties : MaterialProperties
  tags : List String
  aiConfidence : ℚ
deriving Repr, DecidableEq

/-- Particle count chosen by the `switch (material.type)` in
`FlowSimulationEngine.initializeParticles`: `'bulk'` gives 500, `'granular'`
gives 300, `'particle'` and every other value fall through to 100. -/
def particleCountFor (m : Material) : Nat :=
  if m.type = "bulk" then 500
  else if m.type = "granular" then 300
  else 100

/-- One particle as built inside the loop of `initializeParticles`; `rnd`
models the stream of `Math.random()` values, four draws per particle in
source order (x, y, vx, vy). -/
def mkParticle (width : ℚ) (m : Material) (rnd : Nat → ℚ) (i : Nat) : Particle :=
  { x := rnd (4 * i) * width
    y := rnd (4 * i + 1) * 100
    vx := (rnd (4 * i + 2) - 1 / 2) * 2
    vy := rnd (4 * i + 3) * 2
    radius := if m.properties.size = "small" then 3
              else if m.properties.size = "medium" then 5 else 8
    color := if m.properties.color = "" then "#3498db" else m.properties.color
    density := m.properties.density
    friction := m.properties.friction }

/-- `FlowSimulationEngine.initializeParticles`: resets `this.particles` to a
fresh batch of `particleCountFor` particles built from the current material. -/
def initializeParticles (width : ℚ) (m : Material) (rnd : Nat → ℚ) : List Particle :=
  (List.range (particleCountFor m)).map (mkParticle width m rnd)

/-- Slice of the global `appState` read by the engine: `simulationActive` and
`currentMaterial`. -/
structure AppState where
  simulationActive : Bool
  currentMaterial : Option Material
deriving Repr, DecidableEq

/-- Engine state, from the `FlowSimulationEngine` constructor: `particles`,
`isRunning`, and the constants `speed`, `gravity`, `friction`. -/
structure Engine where
  particles : List Particle
  isRunning : Bool
  speed : ℚ
  gravity : ℚ
  friction : ℚ
deriving Repr, DecidableEq

/-- `FlowSimulationEngine.stop`: clears `isRunning` and
`appState.simulationActive`; it touches nothing else (in particular the
particle array is left in place).  The UI calls are out of scope. -/
def Engine.stop (e : Engine) (s : AppState) : Engine × AppState :=
  ({ e with isRunning := false }, { s with simulationActive := false })

/-- `FlowSimulationEngine.start`: a no-op when already running; otherwise sets
the running flags and, when a material is selected, rebuilds the particle
array via `initializeParticles`.  The animation-loop scheduling and UI calls
are out of scope; per-frame stepping is modelled by `updateParticles`. -/
def Engine.start (e : Engine) (s : AppState) (width : ℚ) (rnd : Nat → ℚ) :
    Engine × AppState :=
  if e.isRunning then (e, s)
  else
    match s.currentMaterial with
    | some m =>
        ({ e with isRunning := true, particles := initializeParticles width m rnd },
         { s with simulationActive := true })
    | none => ({ e with isRunning := true }, { s with simulationActive := true })

/-- Squared speed magnitude `vx^2 + vy^2` of a particle. -/
def sqSpeed (p : Particle) : ℚ :=
  p.vx ^ 2 + p.vy ^ 2

/-- Neither boundary branch of `updateParticles` fires on the tick that starts
from `p`: the moved position stays inside `[radius, width - radius]`
horizontally and at most `height - radius` vertically. -/
def noBounce (cfg : SimConfig) (p : Particle) : Prop :=
  p.radius ≤ movedX cfg p ∧ movedX cfg p ≤ cfg.width - p.radius ∧
    movedY cfg p ≤ cfg.height - p.radius

instance (cfg : SimConfig) (p : Particle) : Decidable (noBounce cfg p) := by
  unfold noBounce; infer_instance

/-- C1: one simulation tick performs, in order, the gravity increment, the
friction scaling, the position advance, the horizontal reflection (when `x`
leaves `[radius, width - radius]`) and the vertical clamp-and-reflection (when
`y` exceeds `height - radius`), each with restitution coefficient 0.8: the
code's step function coincides with the spec-worded one. -/
theorem stepParticle_eq_spec (cfg : SimConfig) (p : Particle) :
    stepParticle cfg p = stepParticleSpec cfg p := by
  unfold stepParticle stepParticleSpec
  simp only [not_and_or, not_le, gt_iff_lt]
  split_ifs <;> simp only [Particle.mk.injEq] <;> and_intros <;> first | rfl | ring

/-! Helper lemmas shared by the claim theorems. -/

theorem updateParticles_eq_map (cfg : SimConfig) (ps : List Particle) :
    updateParticles cfg ps = ps.map (stepParticle cfg) := by
  induction ps with
  | nil => rfl
  | cons p ps ih => simp [updateParticles, ih]

theorem stepParticle_radius (cfg : SimConfig) (p : Particle) :
    (stepParticle cfg p).radius = p.radius := rfl

theorem stepParticle_color (cfg : SimConfig) (p : Particle) :
    (stepParticle cfg p).color = p.color := rfl

theorem stepParticle_density (cfg : SimConfig) (p : Particle) :
    (stepParticle cfg p).density = p.density := rfl

theorem stepParticle_friction (cfg : SimConfig) (p : Particle) :
    (stepParticle cfg p).friction = p.friction := rfl

theorem iterate_friction (cfg : SimConfig) (p : Particle) (n : ℕ) :
    ((stepParticle cfg)^[n] p).friction = p.friction := by
  induction n with
  | zero => rfl
  | succ n ih => rw [Function.iterate_succ_apply', stepParticle_friction, ih]

theorem stepParticle_y_le (cfg : SimConfig) (p : Particle) :
    (stepParticle cfg p).y ≤ cfg.height - p.radius := by
  unfold stepParticle
  simp only
  split_ifs with h
  · exact le_refl _
  · exact le_of_not_lt h

theorem stepParticle_x_moved (cfg : SimConfig) (p : Particle) :
    (stepParticle cfg p).x = movedX cfg p := rfl

/-- C10: one tick changes only position and velocity: `radius`, `color`,
`density` and `friction` of every particle are unchanged by `stepParticle`,
and `updateParticles` preserves the length of the particle array. -/
theorem tick_frame_condition (cfg : SimConfig) (p : Particle) (ps : List Particle) :
    (stepParticle cfg p).radius = p.radius ∧ (stepParticle cfg p).color = p.color ∧
    (stepParticle cfg p).density = p.density ∧ (stepParticle cfg p).friction = p.friction ∧
    (updateParticles cfg ps).length = ps.length :=
  ⟨rfl, rfl, rfl, rfl, by rw [updateParticles_eq_map, List.length_map]⟩

/-- C5: when the moved vertical position exceeds `height - radius` the tick
clamps `y` to exactly `height - radius`; consequently every particle ends
every tick with `y ≤ height - radius`. -/
theorem tick_clamps_to_floor (cfg : SimConfig) (p : Particle)
    (h : cfg.height - p.radius < movedY cfg p) :
    (stepParticle cfg p).y = cfg.height - p.radius ∧
    ∀ (cfg' : SimConfig) (q : Particle), (stepParticle cfg' q).y ≤ cfg'.height - q.radius := by
  refine ⟨?_, fun cfg' q => stepParticle_y_le cfg' q⟩
  have h' : p.y + (p.vy + cfg.gravity * p.density * (1 / 100)) * p.friction * cfg.speed >
      cfg.height - p.radius := h
  show (if p.y + (p.vy + cfg.gravity * p.density * (1 / 100)) * p.friction * cfg.speed >
        cfg.height - p.radius then cfg.height - p.radius
      else p.y + (p.vy + cfg.gravity * p.density * (1 / 100)) * p.friction * cfg.speed) =
      cfg.height - p.radius
  rw [if_pos h']

/-- Witness for C5 at a concrete clamping input. -/
theorem tick_clamps_to_floor_witness :
    (⟨0, 1, 800, 600⟩ : SimConfig).height - (⟨400, 599, 0, 10, 3, "c", 1, 1⟩ : Particle).radius <
      movedY ⟨0, 1, 800, 600⟩ ⟨400, 599, 0, 10, 3, "c", 1, 1⟩ ∧
    (stepParticle ⟨0, 1, 800, 600⟩ ⟨400, 599, 0, 10, 3, "c", 1, 1⟩).y =
      (⟨0, 1, 800, 600⟩ : SimConfig).height - (⟨400, 599, 0, 10, 3, "c", 1, 1⟩ : Particle).radius :=
  ⟨by norm_num [movedY], (tick_clamps_to_floor ⟨0, 1, 800, 600⟩ ⟨400, 599, 0, 10, 3, "c", 1, 1⟩
    (by norm_num [movedY])).1⟩

/-- C8: the tick is pure and order-independent across particles: stepping the
whole array equals mapping the single-particle step over it, and stepping
commutes with permuting the array. -/
theorem updateParticles_pure_perm (cfg : SimConfig) (ps qs : List Particle)
    (h : ps.Perm qs) :
    updateParticles cfg ps = ps.map (stepParticle cfg) ∧
    (updateParticles cfg ps).Perm (updateParticles cfg qs) := by
  refine ⟨updateParticles_eq_map cfg ps, ?_⟩
  rw [updateParticles_eq_map, updateParticles_eq_map]
  exact h.map (stepParticle cfg)

/-- Witness for C8 on a concrete two-element permutation. -/
theorem updateParticles_pure_perm_witness :
    ([(⟨1, 2, 3, 4, 5, "a", 1, 1⟩ : Particle), ⟨9, 8, 7, 6, 5, "b", 2, 1⟩].Perm
      [(⟨9, 8, 7, 6, 5, "b", 2, 1⟩ : Particle), ⟨1, 2, 3, 4, 5, "a", 1, 1⟩]) ∧
    (updateParticles ⟨0, 1, 800, 600⟩
        [(⟨1, 2, 3, 4, 5, "a", 1, 1⟩ : Particle), ⟨9, 8, 7, 6, 5, "b", 2, 1⟩] =
      [(⟨1, 2, 3, 4, 5, "a", 1, 1⟩ : Particle), ⟨9, 8, 7, 6, 5, "b", 2, 1⟩].map
        (stepParticle ⟨0, 1, 800, 600⟩) ∧
     (updateParticles ⟨0, 1, 800, 600⟩
        [(⟨1, 2, 3, 4, 5, "a", 1, 1⟩ : Particle), ⟨9, 8, 7, 6, 5, "b", 2, 1⟩]).Perm
       (updateParticles ⟨0, 1, 800, 600⟩
        [(⟨9, 8, 7, 6, 5, "b", 2, 1⟩ : Particle), ⟨1, 2, 3, 4, 5, "a", 1, 1⟩])) :=
  ⟨List.Perm.swap _ _ _,
   updateParticles_pure_perm ⟨0, 1, 800, 600⟩ _ _ (List.Perm.swap _ _ _)⟩

/-- C3 counterexample: a particle resting at `x = 0` with zero velocity stays
at `x = 0 < radius` after the tick — the boundary handling inverts `vx` but
never moves `x` back inside `[radius, width - radius]`, so the claimed
in-bounds invariant fails. -/
theorem tick_leaves_x_outside_bounds :
    (stepParticle ⟨0, 1, 800, 600⟩ ⟨0, 10, 0, 0, 3, "c", 1, 1⟩).x <
      (⟨0, 10, 0, 0, 3, "c", 1, 1⟩ : Particle).radius := by
  norm_num [stepParticle]

/-- C3 (amended): after the boundary-handling phase of a tick every particle
satisfies the floor bound `y ≤ height - radius`, and this holds after every
later tick as well; the horizontal interval bound and the ceiling bound
`radius ≤ y` are not enforced by the code. -/
theorem ticks_keep_y_le_floor (cfg : SimConfig) (ps : List Particle) (n : ℕ)
    (hn : 1 ≤ n) :
    ∀ q ∈ (updateParticles cfg)^[n] ps, q.y ≤ cfg.height - q.radius := by
  obtain ⟨m, rfl⟩ : ∃ m, n = m + 1 := ⟨n - 1, by omega⟩
  rw [Function.iterate_succ_apply']
  intro q hq
  rw [updateParticles_eq_map] at hq
  obtain ⟨r, -, rfl⟩ := List.mem_map.mp hq
  rw [stepParticle_radius]
  exact stepParticle_y_le cfg r

/-- Witness for C3 (amended) after one tick of a singleton array. -/
theorem ticks_keep_y_le_floor_witness :
    1 ≤ 1 ∧ ∀ q ∈ (updateParticles (⟨0, 1, 800, 600⟩ : SimConfig))^[1]
        [(⟨5, 5, 0, 0, 3, "c", 1, 1⟩ : Particle)],
      q.y ≤ (⟨0, 1, 800, 600⟩ : SimConfig).height - q.radius :=
  ⟨le_refl 1,
   ticks_keep_y_le_floor ⟨0, 1, 800, 600⟩ [⟨5, 5, 0, 0, 3, "c", 1, 1⟩] 1 (le_refl 1)⟩

/-- C2 counterexample: the library material `mat_003` (Sand) has category
`'granular'` but type `'bulk'`, and a simulation started on it creates 500
particles, not the 300 the category-based claim requires. -/
theorem sand_category_granular_not_300 :
    (⟨"mat_003", "Sand", "granular", "bulk", ⟨8/5, 7/10, 1/5, "fine", "#D4A76A"⟩,
        ["granular", "fine", "natural", "abrasive"], 23/25⟩ : Material).category =
      "granular" ∧
    (initializeParticles 800
        ⟨"mat_003", "Sand", "granular", "bulk", ⟨8/5, 7/10, 1/5, "fine", "#D4A76A"⟩,
          ["granular", "fine", "natural", "abrasive"], 23/25⟩
        (fun _ => 0)).length ≠ 300 := by
  refine ⟨rfl, ?_⟩
  rw [initializeParticles, List.length_map, List.length_range]
  decide

/-- C2 (amended): the number of particles created on simulation start is
determined by the material's `type` field: `'bulk'` yields exactly 500,
`'granular'` yields exactly 300, and any other type yields exactly 100 —
the `category` field plays no part. -/
theorem initializeParticles_count_by_type (width : ℚ) (m : Material)
    (rnd : Nat → ℚ) :
    (initializeParticles width m rnd).length =
      (if m.type = "bulk" then 500 else if m.type = "granular" then 300 else 100) := by
  rw [initializeParticles, List.length_map, List.length_range, particleCountFor]

/-- C4 counterexample: at `x = radius - 1` with `vx = -1` and friction 1/2 the
tick gives `vx' = (-1) * (1/2) * (-4/5) = 2/5`, not `-0.8 * vx = 4/5`: friction
is applied before the bounce, so the claimed `vx' = -0.8 * vx` fails. -/
theorem reflect_vx_not_neg_08 :
    (⟨2, 10, -1, 0, 3, "c", 1, 1/2⟩ : Particle).x =
      (⟨2, 10, -1, 0, 3, "c", 1, 1/2⟩ : Particle).radius - 1 ∧
    (⟨2, 10, -1, 0, 3, "c", 1, 1/2⟩ : Particle).vx < 0 ∧
    (stepParticle ⟨0, 1, 800, 600⟩ ⟨2, 10, -1, 0, 3, "c", 1, 1/2⟩).vx ≠
      -(4/5) * (⟨2, 10, -1, 0, 3, "c", 1, 1/2⟩ : Particle).vx := by
  refine ⟨by norm_num, by norm_num, ?_⟩
  norm_num [stepParticle]

/-- C4 (amended): a particle at `x = radius - 1` with `vx < 0` (friction
positive, speed nonnegative) reflects inward: after one tick
`vx' = -0.8 * friction * vx`, which is positive. -/
theorem reflect_inward (cfg : SimConfig) (p : Particle)
    (hx : p.x = p.radius - 1) (hvx : p.vx < 0) (hf : 0 < p.friction)
    (hs : 0 ≤ cfg.speed) :
    (stepParticle cfg p).vx = -(4/5) * (p.friction * p.vx) ∧
    0 < (stepParticle cfg p).vx := by
  have hneg : p.vx * p.friction < 0 := mul_neg_of_neg_of_pos hvx hf
  have hmove : p.vx * p.friction * cfg.speed ≤ 0 :=
    mul_nonpos_of_nonpos_of_nonneg hneg.le hs
  have hcond : p.x + p.vx * p.friction * cfg.speed < p.radius := by
    rw [hx]; linarith
  have hvx' : (stepParticle cfg p).vx = p.vx * p.friction * (-(4 / 5)) := by
    show (if p.x + p.vx * p.friction * cfg.speed < p.radius ∨
          p.x + p.vx * p.friction * cfg.speed > cfg.width - p.radius
        then p.vx * p.friction * (-(4 / 5)) else p.vx * p.friction) =
      p.vx * p.friction * (-(4 / 5))
    rw [if_pos (Or.inl hcond)]
  constructor
  · rw [hvx']; ring
  · rw [hvx']; nlinarith

/-- Witness for C4 (amended) at a concrete reflecting input. -/
theorem reflect_inward_witness :
    (⟨2, 10, -1, 0, 3, "c", 1, 1/2⟩ : Particle).x =
      (⟨2, 10, -1, 0, 3, "c", 1, 1/2⟩ : Particle).radius - 1 ∧
    (⟨2, 10, -1, 0, 3, "c", 1, 1/2⟩ : Particle).vx < 0 ∧
    (0 : ℚ) < (⟨2, 10, -1, 0, 3, "c", 1, 1/2⟩ : Particle).friction ∧
    (0 : ℚ) ≤ (⟨0, 1, 800, 600⟩ : SimConfig).speed ∧
    ((stepParticle ⟨0, 1, 800, 600⟩ ⟨2, 10, -1, 0, 3, "c", 1, 1/2⟩).vx =
      -(4/5) * ((⟨2, 10, -1, 0, 3, "c", 1, 1/2⟩ : Particle).friction *
        (⟨2, 10, -1, 0, 3, "c", 1, 1/2⟩ : Particle).vx) ∧
     0 < (stepParticle ⟨0, 1, 800, 600⟩ ⟨2, 10, -1, 0, 3, "c", 1, 1/2⟩).vx) :=
  ⟨by norm_num, by norm_num, by norm_num, by norm_num,
   reflect_inward ⟨0, 1, 800, 600⟩ ⟨2, 10, -1, 0, 3, "c", 1, 1/2⟩
     (by norm_num) (by norm_num) (by norm_num) (by norm_num)⟩

theorem stepParticle_noBounce_eq (cfg : SimConfig) (q : Particle)
    (hg : cfg.gravity = 0) (hf : q.friction = 1) (hs : cfg.speed = 1)
    (hnb : noBounce cfg q) :
    stepParticle cfg q = { q with x := q.x + q.vx, y := q.y + q.vy } := by
  obtain ⟨h1, h2, h3⟩ := hnb
  unfold movedX at h1 h2
  unfold movedY at h3
  have hor : ¬(q.x + q.vx * q.friction * cfg.speed < q.radius ∨
      q.x + q.vx * q.friction * cfg.speed > cfg.width - q.radius) := by
    push_neg
    exact ⟨h1, h2⟩
  have hy : ¬(q.y + (q.vy + cfg.gravity * q.density * (1 / 100)) * q.friction * cfg.speed >
      cfg.height - q.radius) := not_lt.mpr h3
  ext
  · show q.x + q.vx * q.friction * cfg.speed = q.x + q.vx
    rw [hf, hs]; ring
  · show (if q.y + (q.vy + cfg.gravity * q.density * (1 / 100)) * q.friction * cfg.speed >
          cfg.height - q.radius then cfg.height - q.radius
        else q.y + (q.vy + cfg.gravity * q.density * (1 / 100)) * q.friction * cfg.speed) =
      q.y + q.vy
    rw [if_neg hy, hg, hf, hs]; ring
  · show (if q.x + q.vx * q.friction * cfg.speed < q.radius ∨
          q.x + q.vx * q.friction * cfg.speed > cfg.width - q.radius
        then q.vx * q.friction * (-(4 / 5)) else q.vx * q.friction) = q.vx
    rw [if_neg hor, hf]; ring
  · show (if q.y + (q.vy + cfg.gravity * q.density * (1 / 100)) * q.friction * cfg.speed >
          cfg.height - q.radius
        then (q.vy + cfg.gravity * q.density * (1 / 100)) * q.friction * (-(4 / 5))
        else (q.vy + cfg.gravity * q.density * (1 / 100)) * q.friction) = q.vy
    rw [if_neg hy, hg, hf]; ring
  · rfl
  · rfl
  · rfl
  · rfl

theorem iterate_translate (cfg : SimConfig) (p : Particle)
    (hg : cfg.gravity = 0) (hf : p.friction = 1) (hs : cfg.speed = 1) :
    ∀ N : ℕ, (∀ k < N, noBounce cfg ((stepParticle cfg)^[k] p)) →
      ((stepParticle cfg)^[N] p).x = p.x + N * p.vx ∧
      ((stepParticle cfg)^[N] p).y = p.y + N * p.vy ∧
      ((stepParticle cfg)^[N] p).vx = p.vx ∧
      ((stepParticle cfg)^[N] p).vy = p.vy := by
  intro N
  induction N with
  | zero => intro _; simp
  | succ n ih =>
    intro h
    obtain ⟨ihx, ihy, ihvx, ihvy⟩ := ih (fun k hk => h k (Nat.lt_succ_of_lt hk))
    have hq : noBounce cfg ((stepParticle cfg)^[n] p) := h n (Nat.lt_succ_self n)
    have hfq : ((stepParticle cfg)^[n] p).friction = 1 := by
      rw [iterate_friction]; exact hf
    rw [Function.iterate_succ_apply', stepParticle_noBounce_eq cfg _ hg hfq hs hq]
    refine ⟨?_, ?_, ?_, ?_⟩ <;> dsimp only
    · rw [ihx, ihvx]; push_cast; ring
    · rw [ihy, ihvy]; push_cast; ring
    · exact ihvx
    · exact ihvy

/-- C6 counterexample: with `gravity = 0, friction = 1, speed = 1` a particle
at `x = 2` (radius 3) moving left bounces during the first tick, so after two
ticks its position is `9/5`, not the `x + 2*vx = 0` the unconditional
translation claim predicts. -/
theorem translation_fails_at_bounce :
    ((stepParticle ⟨0, 1, 800, 600⟩)^[2] ⟨2, 10, -1, 0, 3, "c", 1, 1⟩).x ≠
      (⟨2, 10, -1, 0, 3, "c", 1, 1⟩ : Particle).x +
        ((2 : ℕ) : ℚ) * (⟨2, 10, -1, 0, 3, "c", 1, 1⟩ : Particle).vx := by
  have s1 : stepParticle ⟨0, 1, 800, 600⟩ ⟨2, 10, -1, 0, 3, "c", 1, 1⟩ =
      ⟨1, 10, 4/5, 0, 3, "c", 1, 1⟩ := by
    norm_num [stepParticle, Particle.mk.injEq]
  have s2 : stepParticle ⟨0, 1, 800, 600⟩ ⟨1, 10, 4/5, 0, 3, "c", 1, 1⟩ =
      ⟨9/5, 10, -16/25, 0, 3, "c", 1, 1⟩ := by
    norm_num [stepParticle, Particle.mk.injEq]
  show (stepParticle ⟨0, 1, 800, 600⟩
      (stepParticle ⟨0, 1, 800, 600⟩ ⟨2, 10, -1, 0, 3, "c", 1, 1⟩)).x ≠ _
  rw [s1, s2]
  norm_num

/-- C6 (amended): with `gravity = 0`, `friction = 1` and `speed = 1`, and
provided neither boundary branch fires during the first `N` ticks, the
position after `N` ticks equals the initial position plus `N` times the
initial velocity (pure translation, no decay). -/
theorem pure_translation (cfg : SimConfig) (p : Particle) (N : ℕ)
    (hg : cfg.gravity = 0) (hf : p.friction = 1) (hs : cfg.speed = 1)
    (hnb : ∀ k < N, noBounce cfg ((stepParticle cfg)^[k] p)) :
    ((stepParticle cfg)^[N] p).x = p.x + N * p.vx ∧
    ((stepParticle cfg)^[N] p).y = p.y + N * p.vy := by
  obtain ⟨hx, hy, -, -⟩ := iterate_translate cfg p hg hf hs N hnb
  exact ⟨hx, hy⟩

/-- Witness for C6 (amended): two interior ticks translate the particle by
twice its velocity. -/
theorem pure_translation_witness :
    ((stepParticle (⟨0, 1, 800, 600⟩ : SimConfig))^[2]
        (⟨100, 100, 1, 1, 3, "c", 1, 1⟩ : Particle)).x =
      (⟨100, 100, 1, 1, 3, "c", 1, 1⟩ : Particle).x +
        ((2 : ℕ) : ℚ) * (⟨100, 100, 1, 1, 3, "c", 1, 1⟩ : Particle).vx ∧
    ((stepParticle (⟨0, 1, 800, 600⟩ : SimConfig))^[2]
        (⟨100, 100, 1, 1, 3, "c", 1, 1⟩ : Particle)).y =
      (⟨100, 100, 1, 1, 3, "c", 1, 1⟩ : Particle).y +
        ((2 : ℕ) : ℚ) * (⟨100, 100, 1, 1, 3, "c", 1, 1⟩ : Particle).vy :=
  pure_translation ⟨0, 1, 800, 600⟩ ⟨100, 100, 1, 1, 3, "c", 1, 1⟩ 2 rfl rfl rfl
    (by
      intro k hk
      interval_cases k
      · simp only [Function.iterate_zero_apply]
        norm_num [noBounce, movedX, movedY]
      · have hstep : stepParticle ⟨0, 1, 800, 600⟩ ⟨100, 100, 1, 1, 3, "c", 1, 1⟩ =
            ⟨101, 101, 1, 1, 3, "c", 1, 1⟩ := by
          norm_num [stepParticle, Particle.mk.injEq]
        rw [Function.iterate_one, hstep]
        norm_num [noBounce, movedX, movedY])

/-- C9 counterexample: `stop()` leaves the particle array in place — after
stopping, the engine still holds exactly the particles it had, a non-empty
set, contradicting the claim that stop discards them. -/
theorem stop_keeps_particles :
    ((Engine.stop ⟨[⟨1, 2, 3, 4, 5, "a", 1, 1⟩], true, 1, 49/5, 49/50⟩
        ⟨true, none⟩).1).particles = [(⟨1, 2, 3, 4, 5, "a", 1, 1⟩ : Particle)] ∧
    [(⟨1, 2, 3, 4, 5, "a", 1, 1⟩ : Particle)] ≠ ([] : List Particle) :=
  ⟨rfl, by simp⟩

/-- C9 (amended): `stop()` only halts the loop and keeps the particle array
unchanged; a restart — `start()` on a stopped engine with a selected
material — discards the old array, installing a fresh batch that depends only
on the material, the canvas width and the random stream, never on the old
particles. -/
theorem stop_start_particle_lifecycle (e : Engine) (s : AppState) (width : ℚ)
    (m : Material) (rnd : Nat → ℚ) (hm : s.currentMaterial = some m)
    (hr : e.isRunning = false) :
    (Engine.stop e s).1.particles = e.particles ∧
    (Engine.start e s width rnd).1.particles = initializeParticles width m rnd := by
  refine ⟨rfl, ?_⟩
  rw [Engine.start, hr, hm]
  simp

/-- Witness for C9 (amended): a stopped engine holding one stale particle,
restarted on the Steel Ball material. -/
theorem stop_start_particle_lifecycle_witness :
    ((⟨true, some ⟨"mat_001", "Steel Ball", "metals", "particle",
        ⟨157/20, 3/10, 4/5, "medium", "#808080"⟩,
        ["metal", "dense", "round", "industrial"], 19/20⟩⟩ : AppState).currentMaterial =
      some ⟨"mat_001", "Steel Ball", "metals", "particle",
        ⟨157/20, 3/10, 4/5, "medium", "#808080"⟩,
        ["metal", "dense", "round", "industrial"], 19/20⟩) ∧
    ((⟨[⟨1, 2, 3, 4, 5, "a", 1, 1⟩], false, 1, 49/5, 49/50⟩ : Engine).isRunning = false) ∧
    ((Engine.stop ⟨[⟨1, 2, 3, 4, 5, "a", 1, 1⟩], false, 1, 49/5, 49/50⟩
        ⟨true, some ⟨"mat_001", "Steel Ball", "metals", "particle",
          ⟨157/20, 3/10, 4/5, "medium", "#808080"⟩,
          ["metal", "dense", "round", "industrial"], 19/20⟩⟩).1.particles =
      (⟨[⟨1, 2, 3, 4, 5, "a", 1, 1⟩], false, 1, 49/5, 49/50⟩ : Engine).particles ∧
     (Engine.start ⟨[⟨1, 2, 3, 4, 5, "a", 1, 1⟩], false, 1, 49/5, 49/50⟩
        ⟨true, some ⟨"mat_001", "Steel Ball", "metals", "particle",
          ⟨157/20, 3/10, 4/5, "medium", "#808080"⟩,
          ["metal", "dense", "round", "industrial"], 19/20⟩⟩ 800
        (fun _ => 0)).1.particles =
      initializeParticles 800
        ⟨"mat_001", "Steel Ball", "metals", "particle",
          ⟨157/20, 3/10, 4/5, "medium", "#808080"⟩,
          ["metal", "dense", "round", "industrial"], 19/20⟩ (fun _ => 0)) :=
  ⟨rfl, rfl,
   stop_start_particle_lifecycle
     ⟨[⟨1, 2, 3, 4, 5, "a", 1, 1⟩], false, 1, 49/5, 49/50⟩
     ⟨true, some ⟨"mat_001", "Steel Ball", "metals", "particle",
       ⟨157/20, 3/10, 4/5, "medium", "#808080"⟩,
       ["metal", "dense", "round", "industrial"], 19/20⟩⟩
     800 _ (fun _ => 0) rfl rfl⟩

theorem sqSpeed_nonneg (p : Particle) : 0 ≤ sqSpeed p := by
  unfold sqSpeed; positivity

theorem sqSpeed_step_le (cfg : SimConfig) (p : Particle) (hg : cfg.gravity = 0) :
    sqSpeed (stepParticle cfg p) ≤ p.friction ^ 2 * sqSpeed p := by
  unfold sqSpeed stepParticle
  dsimp only
  rw [hg]
  split_ifs <;>
    nlinarith [sq_nonneg (p.vx * p.friction), sq_nonneg (p.vy * p.friction),
      sq_nonneg p.vx, sq_nonneg p.vy, sq_nonneg p.friction]

theorem sqSpeed_iterate_le (cfg : SimConfig) (p : Particle) (hg : cfg.gravity = 0)
    (n : ℕ) :
    sqSpeed ((stepParticle cfg)^[n] p) ≤ (p.friction ^ 2) ^ n * sqSpeed p := by
  induction n with
  | zero => simp
  | succ n ih =>
    rw [Function.iterate_succ_apply']
    calc sqSpeed (stepParticle cfg ((stepParticle cfg)^[n] p))
        ≤ ((stepParticle cfg)^[n] p).friction ^ 2 *
            sqSpeed ((stepParticle cfg)^[n] p) := sqSpeed_step_le cfg _ hg
      _ = p.friction ^ 2 * sqSpeed ((stepParticle cfg)^[n] p) := by
            rw [iterate_friction]
      _ ≤ p.friction ^ 2 * ((p.friction ^ 2) ^ n * sqSpeed p) :=
            mul_le_mul_of_nonneg_left ih (sq_nonneg _)
      _ = (p.friction ^ 2) ^ (n + 1) * sqSpeed p := by ring

/-- C7: with zero gravity and friction strictly between 0 and 1, the speed
magnitude `sqrt (vx^2 + vy^2)` never increases from one tick to the next and
tends to zero as the number of ticks grows. -/
theorem speed_magnitude_to_zero (cfg : SimConfig) (p : Particle)
    (h0 : 0 < p.friction) (h1 : p.friction < 1) (hg : cfg.gravity = 0) :
    (∀ n : ℕ,
      Real.sqrt ((sqSpeed ((stepParticle cfg)^[n + 1] p) : ℝ)) ≤
        Real.sqrt ((sqSpeed ((stepParticle cfg)^[n] p) : ℝ))) ∧
    Filter.Tendsto
      (fun n : ℕ => Real.sqrt ((sqSpeed ((stepParticle cfg)^[n] p) : ℝ)))
      Filter.atTop (nhds 0) := by
  have hmono : ∀ n : ℕ,
      sqSpeed ((stepParticle cfg)^[n + 1] p) ≤ sqSpeed ((stepParticle cfg)^[n] p) := by
    intro n
    rw [Function.iterate_succ_apply']
    calc sqSpeed (stepParticle cfg ((stepParticle cfg)^[n] p))
        ≤ ((stepParticle cfg)^[n] p).friction ^ 2 *
            sqSpeed ((stepParticle cfg)^[n] p) := sqSpeed_step_le cfg _ hg
      _ = p.friction ^ 2 * sqSpeed ((stepParticle cfg)^[n] p) := by
            rw [iterate_friction]
      _ ≤ 1 * sqSpeed ((stepParticle cfg)^[n] p) := by
            apply mul_le_mul_of_nonneg_right _ (sqSpeed_nonneg _)
            nlinarith
      _ = sqSpeed ((stepParticle cfg)^[n] p) := one_mul _
  constructor
  · intro n
    apply Real.sqrt_le_sqrt
    exact_mod_cast hmono n
  · have hf0 : (0 : ℝ) ≤ (p.friction : ℝ) := by exact_mod_cast h0.le
    have hf1 : (p.friction : ℝ) < 1 := by exact_mod_cast h1
    have g0 : Filter.Tendsto
        (fun n : ℕ => (p.friction : ℝ) ^ n * Real.sqrt ((sqSpeed p : ℝ)))
        Filter.atTop (nhds 0) := by
      have ht := (tendsto_pow_atTop_nhds_zero_of_lt_one hf0 hf1).mul_const
        (Real.sqrt ((sqSpeed p : ℝ)))
      simpa using ht
    refine squeeze_zero (fun n => Real.sqrt_nonneg _) (fun n => ?_) g0
    have hb : ((sqSpeed ((stepParticle cfg)^[n] p) : ℝ)) ≤
        ((p.friction : ℝ) ^ 2) ^ n * ((sqSpeed p : ℝ)) := by
      exact_mod_cast sqSpeed_iterate_le cfg p hg n
    calc Real.sqrt ((sqSpeed ((stepParticle cfg)^[n] p) : ℝ))
        ≤ Real.sqrt (((p.friction : ℝ) ^ 2) ^ n * ((sqSpeed p : ℝ))) :=
          Real.sqrt_le_sqrt hb
      _ = Real.sqrt (((p.friction : ℝ) ^ n) ^ 2) * Real.sqrt ((sqSpeed p : ℝ)) := by
          rw [← pow_mul, mul_comm 2 n, pow_mul, Real.sqrt_mul (by positivity)]
      _ = (p.friction : ℝ) ^ n * Real.sqrt ((sqSpeed p : ℝ)) := by
          rw [Real.sqrt_sq (by positivity)]

/-- Witness for C7 at friction 1/2 under zero gravity. -/
theorem speed_magnitude_to_zero_witness :
    (0 : ℚ) < (⟨100, 100, 1, 1, 3, "c", 1, 1/2⟩ : Particle).friction ∧
    (⟨100, 100, 1, 1, 3, "c", 1, 1/2⟩ : Particle).friction < 1 ∧
    (⟨0, 1, 800, 600⟩ : SimConfig).gravity = 0 ∧
    ((∀ n : ℕ,
      Real.sqrt ((sqSpeed ((stepParticle (⟨0, 1, 800, 600⟩ : SimConfig))^[n + 1]
          (⟨100, 100, 1, 1, 3, "c", 1, 1/2⟩ : Particle)) : ℝ)) ≤
        Real.sqrt ((sqSpeed ((stepParticle (⟨0, 1, 800, 600⟩ : SimConfig))^[n]
          (⟨100, 100, 1, 1, 3, "c", 1, 1/2⟩ : Particle)) : ℝ))) ∧
    Filter.Tendsto
      (fun n : ℕ => Real.sqrt ((sqSpeed ((stepParticle (⟨0, 1, 800, 600⟩ : SimConfig))^[n]
          (⟨100, 100, 1, 1, 3, "c", 1, 1/2⟩ : Particle)) : ℝ)))
      Filter.atTop (nhds 0)) :=
  ⟨by norm_num, by norm_num, rfl,
   speed_magnitude_to_zero ⟨0, 1, 800, 600⟩ ⟨100, 100, 1, 1, 3, "c", 1, 1/2⟩
     (by norm_num) (by norm_num) rfl⟩
